import Mathlib

/-!
Verification of the shearBands repository (src/underworld2/isotropic.py and
src/underworld2/ti_model.py) against its natural-language specification.

The two scripts are procedural drivers around an external finite-element
library (underworld).  We shallow-embed the logic authored in the scripts
themselves:

* the ad-hoc command-line override machinery (`farg.split("=")`,
  `dicitem.split(".")`, the `True`/`False`/float conversion, the `=` / `*=`
  dispatch on `farg.startswith('dp') / ('md')`, and the broad
  `try/except: pass` wrapper);
* the positional `Model` / `ModNum` argument parsing;
* the manual Picard iteration loop (snapshot previous fields, one external
  linear solve, pressure detrending by the top-wall surface integral,
  the L2 residual norms res1/res2/res3, the `res1 < md.tol` stopping test);
* the `solver.csv` residual-history writer;
* the non-dimensionalisation blocks (`sf` / `ndp` construction).

External calls (the linear solver `solver.solve`, `numpy.sqrt`, the Python
runtime's `float()` / `int()` string parsers) are taken as parameters of the
embedding.  Python strings are modelled by Lean `String`, with `split`,
`startswith` and the `in` substring test implemented over the character
list so that everything evaluates inside the kernel.  Python floats are
modelled by `ℚ` in the executable parts and by `ℝ` in the
non-dimensionalisation block (where `math.sin` / `np.cos` / `math.tan`
appear).  Mesh fields are modelled by their values at quadrature points,
integrals by weighted sums.
-/

namespace ShearBands

/-- A Python value as it can appear in the parameter dictionaries:
a bool, a number (int/float conflated, modelled by `ℚ`), or a string. -/
inductive PyVal where
  | bool (b : Bool)
  | num (q : ℚ)
  | str (s : String)
deriving DecidableEq

/-- A Python dict with string keys (easydict), modelled as an insertion-ordered
association list. -/
abbrev PyDict := List (String × PyVal)

/-- Dictionary lookup: `d[k]`, `None` when the key is absent (KeyError). -/
def dictGet (d : PyDict) (k : String) : Option PyVal :=
  Option.map Prod.snd (d.find? (fun kv => kv.1 == k))

/-- Dictionary assignment `d[k] = v`: overwrite in place when the key exists,
append otherwise (Python dicts keep insertion order). -/
def dictSet : PyDict → String → PyVal → PyDict
  | [], k, v => [(k, v)]
  | (k', v') :: rest, k, v =>
      if k' = k then (k, v) :: rest else (k', v') :: dictSet rest k v

/-- Character-level worker for Python's `str.split(sep)` with a non-empty
separator.  `fuel` bounds the recursion; it is called with more fuel than the
string has characters, so the `0` case is unreachable on real calls. -/
def splitAux (sep : List Char) : ℕ → List Char → List (List Char)
  | 0, s => [s]
  | _ + 1, [] => [[]]
  | fuel + 1, c :: rest =>
      if sep.isPrefixOf (c :: rest) then
        [] :: splitAux sep fuel (List.drop (sep.length - 1) rest)
      else
        match splitAux sep fuel rest with
        | [] => [[c]]
        | h :: t => (c :: h) :: t

/-- Python `s.split(sep)` for a non-empty separator (the scripts split on
`"="`, `"*="` and `"."`). -/
def pySplit (s sep : String) : List String :=
  (splitAux sep.toList (s.toList.length + 1) s.toList).map List.asString

/-- Python `pat in s` for a non-empty pattern: the split on `pat` has at
least two parts exactly when `pat` occurs in `s`. -/
def pyContains (s pat : String) : Bool :=
  2 ≤ (pySplit s pat).length

/-- Python `s.startswith(pat)`. -/
def pyStartsWith (s pat : String) : Bool :=
  pat.toList.isPrefixOf s.toList

/-- Python tuple unpacking `(a, b) = l`: succeeds only when the list has
exactly two elements, otherwise a ValueError is raised. -/
def unpack2 : List String → Option (String × String)
  | [a, b] => some (a, b)
  | _ => none

/-- The value-conversion chain of the override loop (isotropic.py lines
264-272, ti_model.py lines 304-312): the literal `'True'` / `'False'` become
booleans, then `float(val)` is attempted, else the string is kept.
`pf` models the Python runtime's `float()` string parser. -/
def convertVal (pf : String → Option ℚ) (val : String) : PyVal :=
  if val = "True" then PyVal.bool true
  else if val = "False" then PyVal.bool false
  else
    match pf val with
    | some q => PyVal.num q
    | none => PyVal.str val

/-- Python `*` on the values that can meet in `dp[arg]*val`:
number by number multiplies, booleans coerce to 0/1, string times bool is
repetition by 0 or 1; every other combination raises TypeError (`none`). -/
def pyMul : PyVal → PyVal → Option PyVal
  | PyVal.num a, PyVal.num b => some (PyVal.num (a * b))
  | PyVal.bool a, PyVal.num b => some (PyVal.num ((if a then 1 else 0) * b))
  | PyVal.num a, PyVal.bool b => some (PyVal.num (a * (if b then 1 else 0)))
  | PyVal.bool a, PyVal.bool b =>
      some (PyVal.num ((if a then (1:ℚ) else 0) * (if b then 1 else 0)))
  | PyVal.str s, PyVal.bool b => some (PyVal.str (if b then s else ""))
  | PyVal.bool b, PyVal.str s => some (PyVal.str (if b then s else ""))
  | _, _ => none

/-- The pieces of a parsed override token. -/
structure TokenParts where
  dic : String
  arg : String
  val : String
  isMul : Bool
deriving DecidableEq

/-- The token-splitting prefix of the override body (isotropic.py lines
258-262, ti_model.py lines 298-302): split on `"="`, split the left part on
`"."`, and when `'*=' in farg` redo both splits on `"*="`.  Any unpacking
failure is a ValueError (`none`). -/
def splitToken (farg : String) : Option TokenParts := do
  let (dicitem, val) ← unpack2 (pySplit farg "=")
  let (dic, arg) ← unpack2 (pySplit dicitem ".")
  if pyContains farg "*=" then
    let (dicitem2, val2) ← unpack2 (pySplit farg "*=")
    let (dic2, arg2) ← unpack2 (pySplit dicitem2 ".")
    pure ⟨dic2, arg2, val2, true⟩
  else
    pure ⟨dic, arg, val, false⟩

/-- Applying one parsed token to one dictionary: with `*=` the current entry
is looked up (KeyError when absent) and multiplied (TypeError possible), with
`=` the entry is (re)assigned unconditionally. -/
def applyTokenUpdate (d : PyDict) (arg : String) (v : PyVal) (isMul : Bool) :
    Option PyDict :=
  if isMul then do
    let old ← dictGet d arg
    let r ← pyMul old v
    pure (dictSet d arg r)
  else pure (dictSet d arg v)

/-- The body of the override `try:` block for one token (isotropic.py lines
257-283, ti_model.py lines 297-323): parse the token, convert the value,
then update `dp` when `farg.startswith('dp')` and `md` when
`farg.startswith('md')`.  `none` models an escaping exception; note that a
token cannot start with both `'dp'` and `'md'`, so a failing update leaves
both dictionaries untouched. -/
def processToken (pf : String → Option ℚ) (farg : String) (dp md : PyDict) :
    Option (PyDict × PyDict) := do
  let t ← splitToken farg
  let v := convertVal pf t.val
  let dp' ← if pyStartsWith farg "dp" then applyTokenUpdate dp t.arg v t.isMul
            else pure dp
  let md' ← if pyStartsWith farg "md" then applyTokenUpdate md t.arg v t.isMul
            else pure md
  pure (dp', md')

/-- One token under the `try: ... except: pass` wrapper: an exception leaves
the dictionaries exactly as they were. -/
def applyToken (pf : String → Option ℚ) (dp md : PyDict) (farg : String) :
    PyDict × PyDict :=
  (processToken pf farg dp md).getD (dp, md)

/-- The whole override loop `for farg in sys.argv[1:]`. -/
def applyOverrides (pf : String → Option ℚ) (args : List String)
    (dp md : PyDict) : PyDict × PyDict :=
  args.foldl (fun st farg => applyToken pf st.1 st.2 farg) (dp, md)

/-- One positional argument of the `Model` / `ModNum` loop (isotropic.py
lines 152-157, ti_model.py lines 156-161): arguments containing `'='` are
skipped, `int()`-parseable arguments set `ModNum`, the rest set `Model`.
`pint` models the Python runtime's `int()` string parser. -/
def posStep (pint : String → Option ℤ) (acc : String × ℤ) (farg : String) :
    String × ℤ :=
  if pyContains farg "=" then acc
  else
    match pint farg with
    | some n => (acc.1, n)
    | none => (farg, acc.2)

/-- The `Model` / `ModNum` selection (isotropic.py lines 140-157, ti_model.py
lines 144-161): defaults `("T", 0)`; kept when there are no arguments or the
first is `'-f'`, otherwise folded over all arguments.  `args` models
`sys.argv[1:]`. -/
def parseModelArgs (pint : String → Option ℤ) (args : List String) :
    String × ℤ :=
  match args with
  | [] => ("T", 0)
  | a :: _ =>
      if a = "-f" then ("T", 0)
      else args.foldl (posStep pint) ("T", 0)

/-- Python `int()` applied to a float: truncation toward zero. -/
def pyTrunc (q : ℚ) : ℤ :=
  if 0 ≤ q then ⌊q⌋ else -⌊-q⌋

/-- The default dimensional-parameter dictionary of isotropic.py
(lines 203-216), with the derived entries evaluated
(`asthenosphere = depth/4`, `notchWidth = depth/16`). -/
def isoDp0 : PyDict :=
  [("depth", PyVal.num 30000), ("asthenosphere", PyVal.num 7500),
   ("eta1", PyVal.num 1e24), ("eta2", PyVal.num 1e20),
   ("etaMin", PyVal.num 1e18),
   ("U0", PyVal.num (0.0025 / (3600 * 24 * 365))),
   ("rho", PyVal.num 2700), ("g", PyVal.num 9.81),
   ("cohesion", PyVal.num 100e6), ("fa", PyVal.num 30),
   ("a", PyVal.num 1), ("notchWidth", PyVal.num 1875),
   ("lam", PyVal.num 1e16)]

/-- The default model-switch dictionary of isotropic.py (lines 221-232). -/
def isoMd0 : PyDict :=
  [("refineMesh", PyVal.bool false), ("stickyAir", PyVal.bool false),
   ("aspectRatio", PyVal.num 4), ("res", PyVal.num 32),
   ("ppc", PyVal.num 25), ("tol", PyVal.num 1e-10),
   ("pen", PyVal.num 1e7), ("comp", PyVal.bool false),
   ("maxIts", PyVal.num 50), ("perturb", PyVal.num 1),
   ("pertSig", PyVal.num 1)]

/-- The default dimensional-parameter dictionary of ti_model.py
(lines 233-252), with `notchWidth = LS/16` evaluated. -/
def tiDp0 : PyDict :=
  [("LS", PyVal.num 30000), ("asthenosphere", PyVal.num 7500),
   ("eta0", PyVal.num 1e21), ("eta1", PyVal.num 1e23),
   ("eta2", PyVal.num 1e20), ("etaMin", PyVal.num 1e18),
   ("U0", PyVal.num (0.0125 / (3600 * 24 * 365))),
   ("rho", PyVal.num 2700), ("g", PyVal.num 9.81),
   ("cohesion", PyVal.num 100e6), ("fa", PyVal.num 15),
   ("a", PyVal.num 1), ("notchWidth", PyVal.num 1875)]

/-- The default model-switch dictionary of ti_model.py (lines 260-270). -/
def tiMd0 : PyDict :=
  [("refineMesh", PyVal.bool false), ("stickyAir", PyVal.bool false),
   ("aspectRatio", PyVal.num 4), ("res", PyVal.num 48),
   ("ppc", PyVal.num 35), ("tol", PyVal.num 1e-7),
   ("maxIts", PyVal.num 50), ("directorPhi", PyVal.num 45),
   ("directorV", PyVal.num 1e-5), ("directorSigma", PyVal.num 1e-5)]

/-- The `md` dictionary of isotropic.py as it stands when the Picard loop
starts: command-line overrides applied to the defaults, then the
unconditional reassignment `md.maxIts = 10.` (line 734). -/
def isoMdAtLoop (pf : String → Option ℚ) (args : List String) : PyDict :=
  dictSet (applyOverrides pf args isoDp0 isoMd0).2 "maxIts" (PyVal.num 10)

/-- The `md` dictionary of ti_model.py as it stands when the Picard loop
starts: command-line overrides applied to the defaults, then the
unconditional reassignment `md.maxIts = 4` (line 907). -/
def tiMdAtLoop (pf : String → Option ℚ) (args : List String) : PyDict :=
  dictSet (applyOverrides pf args tiDp0 tiMd0).2 "maxIts" (PyVal.num 4)

/-! ## The manual Picard iteration

Fields are modelled by their values at quadrature points: `ι` indexes the
volume quadrature points of `mesh`, `σ` the surface quadrature points of the
top wall.  `uw.utils.Integral` is a weighted sum over the respective points.
The external linear solve is a parameter `solve` acting on the field state;
`numpy.sqrt` is a parameter `sq`. -/

/-- The mesh fields the Picard loop reads and writes: the velocity field and
the pressure field (the latter through its values at both the volume and the
top-wall surface quadrature points; subtracting a constant from the pressure
degrees of freedom shifts all of them). -/
structure PicState (ι σ : Type) where
  vel : ι → ℚ × ℚ
  pVol : ι → ℚ
  pSurf : σ → ℚ

/-- Quadrature data of the mesh: volume weights and top-wall surface
weights. -/
structure MeshData (ι σ : Type) where
  wVol : ι → ℚ
  wSurf : σ → ℚ

/-- `fn.math.dot` on 2-d vectors. -/
def dot2 (a b : ℚ × ℚ) : ℚ := a.1 * b.1 + a.2 * b.2

/-- `uw.utils.Integral(Fn, mesh)` (the `volumeint` helper of both scripts):
quadrature sum of the integrand over the mesh. -/
def volumeint {ι : Type} [Fintype ι] (w f : ι → ℚ) : ℚ := ∑ i, w i * f i

/-- `uw.utils.Integral(fn, integrationType='surface', surfaceIndexSet=top)`:
quadrature sum over the top wall. -/
def surfint {σ : Type} [Fintype σ] (w g : σ → ℚ) : ℚ := ∑ j, w j * g j

/-- `surfaceArea.evaluate()`: the top-wall surface integral of the constant
function `1.0`. -/
def areaOf {ι σ : Type} [Fintype σ] (M : MeshData ι σ) : ℚ :=
  surfint M.wSurf (fun _ => 1)

/-- The pressure-drift removal executed right after each solve
(isotropic.py lines 773-774, ti_model.py lines 946-947):
`(p0,) = surfacePressureIntegral.evaluate(); pressureField.data[:] -= p0/area`. -/
def detrendP {ι σ : Type} [Fintype σ] (M : MeshData ι σ) (st : PicState ι σ) :
    PicState ι σ :=
  let p0 := surfint M.wSurf st.pSurf
  ⟨st.vel, fun i => st.pVol i - p0 / areaOf M,
   fun j => st.pSurf j - p0 / areaOf M⟩

/-- The residual triple `(res1, res2, res3)` computed in each iteration of
isotropic.py (lines 784-833): all six L2 norms are formed, `delV` and `delP`
are current minus previous-iteration snapshot, and each residual is the
absolute value of a quotient of norms. -/
def isoRes {ι σ : Type} [Fintype ι] (sq : ℚ → ℚ) (w : ι → ℚ)
    (cur prev : PicState ι σ) : ℚ × ℚ × ℚ :=
  let velL2 := sq (volumeint w (fun i => dot2 (cur.vel i) (cur.vel i)))
  let delV := fun i => cur.vel i - prev.vel i
  let delvelL2 := sq (volumeint w (fun i => dot2 (delV i) (delV i)))
  let pL2 := sq (volumeint w (fun i => cur.pVol i * cur.pVol i))
  let delP := fun i => cur.pVol i - prev.pVol i
  let delpL2 := sq (volumeint w (fun i => delP i * delP i))
  let xL2 := sq (volumeint w
    (fun i => dot2 (cur.vel i) (cur.vel i) + cur.pVol i * cur.pVol i))
  let delxL2 := sq (volumeint w
    (fun i => dot2 (delV i) (delV i) + delP i * delP i))
  (|delvelL2 / velL2|, |delpL2 / pL2|, |delxL2 / xL2|)

/-- The residual triple of ti_model.py (lines 957-1006).  It differs from
isotropic.py in one place: line 978 reads `delP = pressureField -
pressureField`, so the `delP` entering `res2` is identically zero, while
line 992 rebinds `delP = pressureField - prevPressureField` for `res3`. -/
def tiRes {ι σ : Type} [Fintype ι] (sq : ℚ → ℚ) (w : ι → ℚ)
    (cur prev : PicState ι σ) : ℚ × ℚ × ℚ :=
  let velL2 := sq (volumeint w (fun i => dot2 (cur.vel i) (cur.vel i)))
  let delV := fun i => cur.vel i - prev.vel i
  let delvelL2 := sq (volumeint w (fun i => dot2 (delV i) (delV i)))
  let pL2 := sq (volumeint w (fun i => cur.pVol i * cur.pVol i))
  let delP2 := fun i => cur.pVol i - cur.pVol i
  let delpL2 := sq (volumeint w (fun i => delP2 i * delP2 i))
  let xL2 := sq (volumeint w
    (fun i => dot2 (cur.vel i) (cur.vel i) + cur.pVol i * cur.pVol i))
  let delP3 := fun i => cur.pVol i - prev.pVol i
  let delxL2 := sq (volumeint w
    (fun i => dot2 (delV i) (delV i) + delP3 i * delP3 i))
  (|delvelL2 / velL2|, |delpL2 / pL2|, |delxL2 / xL2|)

/-- What the loop accumulates: the three residual histories (`res1Vals`,
`res2Vals`, `res3Vals`), the iteration counter `count`, the number of
`solver.solve` invocations, and the final field state. -/
structure PicOut (ι σ : Type) where
  res1Vals : List ℚ
  res2Vals : List ℚ
  res3Vals : List ℚ
  count : ℕ
  solves : ℕ
  finalState : PicState ι σ

/-- One pass of the loop body up to the norm computations: snapshot, one
external solve, pressure detrending. -/
def picardStep {ι σ : Type} [Fintype σ] (M : MeshData ι σ)
    (solve : PicState ι σ → PicState ι σ) (s : PicState ι σ) : PicState ι σ :=
  detrendP M (solve s)

/-- The `for i in range(int(md.maxIts))` loop of both scripts (isotropic.py
lines 764-843, ti_model.py lines 937-1016): each iteration snapshots the
fields, invokes the external solver once, detrends the pressure, computes
the residual triple, appends all three to the histories, increments `count`,
and breaks exactly when `res1 < md.tol`. -/
def picardLoop {ι σ : Type} [Fintype σ] (M : MeshData ι σ)
    (solve : PicState ι σ → PicState ι σ)
    (res : PicState ι σ → PicState ι σ → ℚ × ℚ × ℚ) (tol : ℚ) :
    ℕ → PicState ι σ → PicOut ι σ
  | 0, s => ⟨[], [], [], 0, 0, s⟩
  | n + 1, s =>
      let cur := picardStep M solve s
      let r := res cur s
      if r.1 < tol then ⟨[r.1], [r.2.1], [r.2.2], 1, 1, cur⟩
      else
        let o := picardLoop M solve res tol n cur
        ⟨r.1 :: o.res1Vals, r.2.1 :: o.res2Vals, r.2.2 :: o.res3Vals,
         o.count + 1, o.solves + 1, o.finalState⟩

/-- The Picard loop of isotropic.py. -/
def isoPicard {ι σ : Type} [Fintype ι] [Fintype σ] (M : MeshData ι σ)
    (solve : PicState ι σ → PicState ι σ) (sq : ℚ → ℚ) (tol : ℚ) (n : ℕ)
    (s0 : PicState ι σ) : PicOut ι σ :=
  picardLoop M solve (isoRes sq M.wVol) tol n s0

/-- The Picard loop of ti_model.py. -/
def tiPicard {ι σ : Type} [Fintype ι] [Fintype σ] (M : MeshData ι σ)
    (solve : PicState ι σ → PicState ι σ) (sq : ℚ → ℚ) (tol : ℚ) (n : ℕ)
    (s0 : PicState ι σ) : PicOut ι σ :=
  picardLoop M solve (tiRes sq M.wVol) tol n s0

/-- The field state entering iteration `k` (so `stateAt 0` is the initial
state and `stateAt (k+1)` is the post-solve, post-detrend state of
iteration `k`, the one all the norms of iteration `k` are computed on). -/
def stateAt {ι σ : Type} [Fintype σ] (M : MeshData ι σ)
    (solve : PicState ι σ → PicState ι σ) (s0 : PicState ι σ) (k : ℕ) :
    PicState ι σ :=
  (picardStep M solve)^[k] s0

/-- The residual triple produced by iteration `k` of the trajectory. -/
def resSeq {ι σ : Type} [Fintype σ] (M : MeshData ι σ)
    (solve : PicState ι σ → PicState ι σ)
    (res : PicState ι σ → PicState ι σ → ℚ × ℚ × ℚ) (s0 : PicState ι σ)
    (k : ℕ) : ℚ × ℚ × ℚ :=
  res (stateAt M solve s0 (k + 1)) (stateAt M solve s0 k)

/-- First index `k < n` at which the predicate holds. -/
def firstHit (p : ℕ → Bool) : ℕ → Option ℕ
  | 0 => none
  | n + 1 =>
      if p 0 then some 0
      else Option.map (· + 1) (firstHit (fun k => p (k + 1)) n)

/-- Number of iterations a break-on-`p` loop with bound `n` executes. -/
def stopCount (p : ℕ → Bool) (n : ℕ) : ℕ :=
  match firstHit p n with
  | some k => k + 1
  | none => n

/-- The rows written to `solver.csv` at the end of a run (isotropic.py lines
1208-1212, ti_model.py lines 1380-1384): one `writerow` per residual history,
in the order `res1Vals`, `res2Vals`, `res3Vals`. -/
def solverCsv {ι σ : Type} (o : PicOut ι σ) : List (List ℚ) :=
  [o.res1Vals, o.res2Vals, o.res3Vals]

/-- `np.radians`: degrees to radians. -/
noncomputable def radians (x : ℝ) : ℝ := x * Real.pi / 180

namespace IsoScale

/-! The non-dimensionalisation block of isotropic.py (lines 203-216 for `dp`,
296-321 for `sf` / `ndp`), over `ℝ` since `np.cos` / `math.sin` enter. -/

noncomputable def dp_depth : ℝ := 30 * 1e3
noncomputable def dp_asthenosphere : ℝ := dp_depth / 4
noncomputable def dp_eta1 : ℝ := 1e24
noncomputable def dp_eta2 : ℝ := 1e20
noncomputable def dp_etaMin : ℝ := 1e18
noncomputable def dp_U0 : ℝ := 0.0025 / (3600 * 24 * 365)
noncomputable def dp_rho : ℝ := 2700
noncomputable def dp_g : ℝ := 9.81
noncomputable def dp_cohesion : ℝ := 100e6
noncomputable def dp_fa : ℝ := 30
noncomputable def dp_a : ℝ := 1
noncomputable def dp_notchWidth : ℝ := dp_depth / 16
noncomputable def dp_lam : ℝ := 1e16

noncomputable def sf_LS : ℝ := 30 * 1e3
noncomputable def sf_eta0 : ℝ := 1e22
noncomputable def sf_stress : ℝ := sf_eta0 * dp_U0 / sf_LS
noncomputable def sf_vel : ℝ := dp_U0
noncomputable def sf_density : ℝ := sf_LS ^ 3
noncomputable def sf_g : ℝ := dp_g
noncomputable def sf_rho : ℝ := sf_eta0 * dp_U0 / (sf_LS ^ 2 * dp_g)

noncomputable def ndp_depth : ℝ := dp_depth / sf_LS
noncomputable def ndp_U0 : ℝ := dp_U0 / sf_vel
noncomputable def ndp_asthenosphere : ℝ := dp_asthenosphere / sf_LS
noncomputable def ndp_eta1 : ℝ := dp_eta1 / sf_eta0
noncomputable def ndp_eta2 : ℝ := dp_eta2 / sf_eta0
noncomputable def ndp_etaMin : ℝ := dp_etaMin / sf_eta0
noncomputable def ndp_cohesion : ℝ :=
  dp_cohesion / sf_stress * Real.cos (radians dp_fa)
noncomputable def ndp_fa : ℝ := Real.sin (radians dp_fa)
noncomputable def ndp_g : ℝ := dp_g / sf_g
noncomputable def ndp_rho : ℝ := dp_rho / sf_rho
noncomputable def ndp_notchWidth : ℝ := dp_notchWidth / sf_LS
noncomputable def ndp_a : ℝ := dp_a
noncomputable def ndp_lam : ℝ := dp_lam / sf_eta0

end IsoScale

namespace TiScale

/-! The non-dimensionalisation block of ti_model.py (lines 233-252 for `dp`,
348-369 for `sf` / `ndp`). -/

noncomputable def dp_LS : ℝ := 30 * 1e3
noncomputable def dp_asthenosphere : ℝ := 30 * 1e3 / 4
noncomputable def dp_eta0 : ℝ := 1e21
noncomputable def dp_eta1 : ℝ := 1e23
noncomputable def dp_eta2 : ℝ := 1e20
noncomputable def dp_etaMin : ℝ := 1e18
noncomputable def dp_U0 : ℝ := 0.0125 / (3600 * 24 * 365)
noncomputable def dp_rho : ℝ := 2700
noncomputable def dp_g : ℝ := 9.81
noncomputable def dp_cohesion : ℝ := 100e6
noncomputable def dp_fa : ℝ := 15
noncomputable def dp_a : ℝ := 1
noncomputable def dp_notchWidth : ℝ := dp_LS / 16

noncomputable def sf_stress : ℝ := dp_eta0 * dp_U0 / dp_LS
noncomputable def sf_vel : ℝ := dp_U0
noncomputable def sf_density : ℝ := dp_LS ^ 3
noncomputable def sf_g : ℝ := dp_g
noncomputable def sf_rho : ℝ := dp_eta0 * dp_U0 / (dp_LS ^ 2 * dp_g)

noncomputable def ndp_U : ℝ := dp_U0 / sf_vel
noncomputable def ndp_asthenosphere : ℝ := dp_asthenosphere / dp_LS
noncomputable def ndp_eta1 : ℝ := dp_eta1 / dp_eta0
noncomputable def ndp_eta2 : ℝ := dp_eta2 / dp_eta0
noncomputable def ndp_etaMin : ℝ := dp_etaMin / dp_eta0
noncomputable def ndp_cohesion : ℝ := dp_cohesion / sf_stress
noncomputable def ndp_fa : ℝ := Real.tan (Real.pi / 180 * dp_fa)
noncomputable def ndp_g : ℝ := dp_g / sf_g
noncomputable def ndp_rho : ℝ := dp_rho / sf_rho
noncomputable def ndp_notchWidth : ℝ := dp_notchWidth / dp_LS
noncomputable def ndp_a : ℝ := dp_a

end TiScale

/-! Concrete fixtures used by witness theorems: a one-point quadrature mesh,
an initial state, a toy external solver, toy runtime parsers. -/

def exMesh : MeshData (Fin 1) (Fin 1) := ⟨fun _ => 1, fun _ => 2⟩

def exState : PicState (Fin 1) (Fin 1) :=
  ⟨fun _ => (1, 0), fun _ => 3, fun _ => 3⟩

def exSolve : PicState (Fin 1) (Fin 1) → PicState (Fin 1) (Fin 1) :=
  fun st => ⟨fun i => ((st.vel i).1 + 1, (st.vel i).2),
             fun i => st.pVol i + 1, fun j => st.pSurf j + 1⟩

/-- A toy `float()` parser accepting only the literal `"2"`. -/
def exFloatParse : String → Option ℚ := fun s => if s = "2" then some 2 else none

/-- A toy `int()` parser accepting only the literal `"7"`. -/
def exIntParse : String → Option ℤ := fun s => if s = "7" then some 7 else none

/-- The one-point weight function used in the concrete residual
computations. -/
def exW : Fin 1 → ℚ := fun _ => 1

/-- A concrete current state whose pressure is 1 everywhere. -/
def exCur : PicState (Fin 1) (Fin 1) := ⟨fun _ => (0, 0), fun _ => 1, fun _ => 1⟩

/-- A concrete previous-iteration snapshot whose pressure is 0 everywhere. -/
def exPrev : PicState (Fin 1) (Fin 1) := ⟨fun _ => (0, 0), fun _ => 0, fun _ => 0⟩

theorem stateAt_zero {ι σ : Type} [Fintype σ] (M : MeshData ι σ)
    (solve : PicState ι σ → PicState ι σ) (s0 : PicState ι σ) :
    stateAt M solve s0 0 = s0 := rfl

theorem stateAt_shift {ι σ : Type} [Fintype σ] (M : MeshData ι σ)
    (solve : PicState ι σ → PicState ι σ) (s0 : PicState ι σ) (k : ℕ) :
    stateAt M solve (picardStep M solve s0) k = stateAt M solve s0 (k + 1) := by
  simp [stateAt, Function.iterate_succ_apply]

theorem resSeq_shift {ι σ : Type} [Fintype σ] (M : MeshData ι σ)
    (solve : PicState ι σ → PicState ι σ)
    (res : PicState ι σ → PicState ι σ → ℚ × ℚ × ℚ) (s0 : PicState ι σ)
    (k : ℕ) :
    resSeq M solve res (picardStep M solve s0) k =
      resSeq M solve res s0 (k + 1) := by
  simp [resSeq, stateAt_shift]

theorem resSeq_zero {ι σ : Type} [Fintype σ] (M : MeshData ι σ)
    (solve : PicState ι σ → PicState ι σ)
    (res : PicState ι σ → PicState ι σ → ℚ × ℚ × ℚ) (s0 : PicState ι σ) :
    resSeq M solve res s0 0 = res (picardStep M solve s0) s0 := by
  simp [resSeq, stateAt]

theorem stopCount_pos (p : ℕ → Bool) (n : ℕ) (h : p 0 = true) :
    stopCount p (n + 1) = 1 := by
  simp [stopCount, firstHit, h]

theorem stopCount_neg (p : ℕ → Bool) (n : ℕ) (h : p 0 = false) :
    stopCount p (n + 1) = stopCount (fun k => p (k + 1)) n + 1 := by
  simp only [stopCount, firstHit, h, Bool.false_eq_true, if_false]
  cases firstHit (fun k => p (k + 1)) n <;> simp

theorem firstHit_spec :
    ∀ (n : ℕ) (p : ℕ → Bool) (k : ℕ), firstHit p n = some k →
      p k = true ∧ ∀ j, j < k → p j = false := by
  intro n
  induction n with
  | zero => intro p k h; simp [firstHit] at h
  | succ n ih =>
      intro p k h
      by_cases h0 : p 0 = true
      · simp [firstHit, h0] at h
        subst h
        exact ⟨h0, fun j hj => absurd hj (Nat.not_lt_zero j)⟩
      · simp only [firstHit, h0, if_false, Bool.not_eq_true] at h
        rw [Bool.not_eq_true] at h0
        simp only [h0, Bool.false_eq_true, if_false, Option.map_eq_some'] at h
        obtain ⟨k', hk', rfl⟩ := h
        obtain ⟨hpk, hbelow⟩ := ih (fun k => p (k + 1)) k' hk'
        refine ⟨hpk, fun j hj => ?_⟩
        cases j with
        | zero => exact h0
        | succ j => exact hbelow j (Nat.lt_of_succ_lt_succ hj)

theorem firstHit_none :
    ∀ (n : ℕ) (p : ℕ → Bool), firstHit p n = none →
      ∀ j, j < n → p j = false := by
  intro n
  induction n with
  | zero => intro p _ j hj; exact absurd hj (Nat.not_lt_zero j)
  | succ n ih =>
      intro p h j hj
      by_cases h0 : p 0 = true
      · simp [firstHit, h0] at h
      · rw [Bool.not_eq_true] at h0
        simp only [firstHit, h0, Bool.false_eq_true, if_false,
          Option.map_eq_none'] at h
        cases j with
        | zero => exact h0
        | succ j => exact ih (fun k => p (k + 1)) h j (Nat.lt_of_succ_lt_succ hj)

theorem firstHit_lt :
    ∀ (n : ℕ) (p : ℕ → Bool) (k : ℕ), firstHit p n = some k → k < n := by
  intro n
  induction n with
  | zero => intro p k h; simp [firstHit] at h
  | succ n ih =>
      intro p k h
      by_cases h0 : p 0 = true
      · simp [firstHit, h0] at h
        omega
      · rw [Bool.not_eq_true] at h0
        simp only [firstHit, h0, Bool.false_eq_true, if_false,
          Option.map_eq_some'] at h
        obtain ⟨k', hk', rfl⟩ := h
        exact Nat.succ_lt_succ (ih _ k' hk')

theorem stopCount_of_some (p : ℕ → Bool) (n k : ℕ)
    (h : firstHit p n = some k) : stopCount p n = k + 1 := by
  simp [stopCount, h]

theorem stopCount_of_none (p : ℕ → Bool) (n : ℕ)
    (h : firstHit p n = none) : stopCount p n = n := by
  simp [stopCount, h]

theorem stopCount_le (p : ℕ → Bool) (n : ℕ) : stopCount p n ≤ n := by
  unfold stopCount
  cases h : firstHit p n with
  | none => exact le_rfl
  | some k => exact firstHit_lt n p k h

/-- Full characterisation of the Picard loop: the iteration count is the
break-on-`res1 < tol` stopping count, the histories are the residual
trajectory up to that count, the solver runs once per iteration, and the
final state is the trajectory state after `count` steps. -/
theorem picardLoop_eq {ι σ : Type} [Fintype σ] (M : MeshData ι σ)
    (solve : PicState ι σ → PicState ι σ)
    (res : PicState ι σ → PicState ι σ → ℚ × ℚ × ℚ) (tol : ℚ) :
    ∀ (n : ℕ) (s0 : PicState ι σ),
      picardLoop M solve res tol n s0 =
        { res1Vals := (List.range (stopCount
              (fun k => decide ((resSeq M solve res s0 k).1 < tol)) n)).map
              (fun k => (resSeq M solve res s0 k).1)
          res2Vals := (List.range (stopCount
              (fun k => decide ((resSeq M solve res s0 k).1 < tol)) n)).map
              (fun k => (resSeq M solve res s0 k).2.1)
          res3Vals := (List.range (stopCount
              (fun k => decide ((resSeq M solve res s0 k).1 < tol)) n)).map
              (fun k => (resSeq M solve res s0 k).2.2)
          count := stopCount
              (fun k => decide ((resSeq M solve res s0 k).1 < tol)) n
          solves := stopCount
              (fun k => decide ((resSeq M solve res s0 k).1 < tol)) n
          finalState := stateAt M solve s0 (stopCount
              (fun k => decide ((resSeq M solve res s0 k).1 < tol)) n) } := by
  intro n
  induction n with
  | zero => intro s0; simp [picardLoop, stopCount, firstHit, stateAt]
  | succ n ih =>
      intro s0
      by_cases h : (res (picardStep M solve s0) s0).1 < tol
      · have h0 : (fun k => decide ((resSeq M solve res s0 k).1 < tol)) 0
            = true := by
          simp [resSeq_zero, h]
        rw [stopCount_pos _ _ h0]
        simp only [picardLoop, h, if_true]
        simp only [PicOut.mk.injEq]
        refine ⟨?_, ?_, ?_, trivial, trivial, ?_⟩ <;>
          simp [List.range_succ, resSeq_zero, stateAt, Function.iterate_one]
      · have h0 : (fun k => decide ((resSeq M solve res s0 k).1 < tol)) 0
            = false := by
          simp [resSeq_zero, h]
        rw [stopCount_neg _ _ h0]
        have hshift : (fun k =>
            decide ((resSeq M solve res (picardStep M solve s0) k).1 < tol)) =
            fun k => decide ((resSeq M solve res s0 (k + 1)).1 < tol) := by
          funext k
          rw [resSeq_shift]
        simp only [picardLoop, h, if_false]
        rw [ih (picardStep M solve s0), hshift]
        simp only [List.range_succ_eq_map, List.map_cons, List.map_map]
        simp only [PicOut.mk.injEq]
        refine ⟨?_, ?_, ?_, trivial, trivial, ?_⟩
        · rw [resSeq_zero]
          refine congrArg _ (List.map_congr_left ?_)
          intro k _
          simp [Function.comp, resSeq_shift, Nat.succ_eq_add_one]
        · rw [resSeq_zero]
          refine congrArg _ (List.map_congr_left ?_)
          intro k _
          simp [Function.comp, resSeq_shift, Nat.succ_eq_add_one]
        · rw [resSeq_zero]
          refine congrArg _ (List.map_congr_left ?_)
          intro k _
          simp [Function.comp, resSeq_shift, Nat.succ_eq_add_one]
        · rw [stateAt_shift]

theorem dictGet_dictSet (d : PyDict) (k : String) (v : PyVal) :
    dictGet (dictSet d k v) k = some v := by
  induction d with
  | nil => simp [dictGet, dictSet]
  | cons kv rest ih =>
      obtain ⟨k', v'⟩ := kv
      by_cases h : k' = k
      · simp [dictGet, dictSet, h]
      · simpa [dictGet, dictSet, h] using ih

theorem splitAux_ne_nil (sep : List Char) :
    ∀ (fuel : ℕ) (s : List Char), splitAux sep fuel s ≠ [] := by
  intro fuel s
  match fuel, s with
  | 0, s => simp [splitAux]
  | _ + 1, [] => simp [splitAux]
  | fuel + 1, c :: rest =>
      simp only [splitAux]
      split
      · simp
      · split <;> simp

theorem pySplit_ne_nil (s sep : String) : pySplit s sep ≠ [] := by
  simp [pySplit, splitAux_ne_nil]

theorem unpack2_of_not_contains (farg sep : String)
    (h : pyContains farg sep = false) : unpack2 (pySplit farg sep) = none := by
  have hlen : ¬ 2 ≤ (pySplit farg sep).length := by
    rw [pyContains, decide_eq_false_iff_not] at h
    exact h
  cases hl : pySplit farg sep with
  | nil => exact absurd hl (pySplit_ne_nil farg sep)
  | cons a t =>
      cases t with
      | nil => rfl
      | cons b t' =>
          rw [hl] at hlen
          simp at hlen

theorem picardLoop_count_le {ι σ : Type} [Fintype σ] (M : MeshData ι σ)
    (solve : PicState ι σ → PicState ι σ)
    (res : PicState ι σ → PicState ι σ → ℚ × ℚ × ℚ) (tol : ℚ) (n : ℕ)
    (s0 : PicState ι σ) : (picardLoop M solve res tol n s0).count ≤ n := by
  rw [picardLoop_eq]
  exact stopCount_le _ n

/-- The stopping profile of the loop: one solver call per iteration, the
residual history is the trajectory, the loop stops at the first `res1 < tol`
(never earlier, never later short of the bound). -/
theorem picard_stop_profile {ι σ : Type} [Fintype σ] (M : MeshData ι σ)
    (solve : PicState ι σ → PicState ι σ)
    (res : PicState ι σ → PicState ι σ → ℚ × ℚ × ℚ) (tol : ℚ) (n : ℕ)
    (s0 : PicState ι σ) :
    (picardLoop M solve res tol n s0).solves =
      (picardLoop M solve res tol n s0).count ∧
    (picardLoop M solve res tol n s0).res1Vals =
      (List.range (picardLoop M solve res tol n s0).count).map
        (fun k => (resSeq M solve res s0 k).1) ∧
    (picardLoop M solve res tol n s0).count =
      stopCount (fun k => decide ((resSeq M solve res s0 k).1 < tol)) n ∧
    (picardLoop M solve res tol n s0).count ≤ n ∧
    (∀ j, j + 1 < (picardLoop M solve res tol n s0).count →
      ¬ (resSeq M solve res s0 j).1 < tol) ∧
    ((picardLoop M solve res tol n s0).count < n →
      (resSeq M solve res s0
        ((picardLoop M solve res tol n s0).count - 1)).1 < tol) := by
  have hc : (picardLoop M solve res tol n s0).count =
      stopCount (fun k => decide ((resSeq M solve res s0 k).1 < tol)) n := by
    rw [picardLoop_eq]
  have hs : (picardLoop M solve res tol n s0).solves =
      stopCount (fun k => decide ((resSeq M solve res s0 k).1 < tol)) n := by
    rw [picardLoop_eq]
  have hr : (picardLoop M solve res tol n s0).res1Vals =
      (List.range (stopCount
        (fun k => decide ((resSeq M solve res s0 k).1 < tol)) n)).map
        (fun k => (resSeq M solve res s0 k).1) := by
    rw [picardLoop_eq]
  refine ⟨by rw [hs, hc], by rw [hr, hc], hc, hc ▸ stopCount_le _ n, ?_, ?_⟩
  · intro j hj
    rw [hc] at hj
    cases hfh : firstHit
        (fun k => decide ((resSeq M solve res s0 k).1 < tol)) n with
    | none =>
        rw [stopCount_of_none _ _ hfh] at hj
        have := firstHit_none n _ hfh j (by omega)
        simpa using this
    | some k =>
        rw [stopCount_of_some _ _ _ hfh] at hj
        have := (firstHit_spec n _ k hfh).2 j (by omega)
        simpa using this
  · intro hlt
    rw [hc] at hlt ⊢
    cases hfh : firstHit
        (fun k => decide ((resSeq M solve res s0 k).1 < tol)) n with
    | none =>
        rw [stopCount_of_none _ _ hfh] at hlt
        exact absurd hlt (lt_irrefl n)
    | some k =>
        rw [stopCount_of_some _ _ _ hfh] at hlt ⊢
        have := (firstHit_spec n _ k hfh).1
        simpa using this

/-- Replacing the `res2` / `res3` computations by arbitrary functions leaves
the stopping behaviour, `res1` history, solve count and final state
untouched: only `res1` feeds the break test. -/
theorem picard_res23_irrelevant {ι σ : Type} [Fintype σ] (M : MeshData ι σ)
    (solve : PicState ι σ → PicState ι σ)
    (res : PicState ι σ → PicState ι σ → ℚ × ℚ × ℚ)
    (g2 g3 : PicState ι σ → PicState ι σ → ℚ) (tol : ℚ) (n : ℕ)
    (s0 : PicState ι σ) :
    (picardLoop M solve
        (fun c pr => ((res c pr).1, g2 c pr, g3 c pr)) tol n s0).count =
      (picardLoop M solve res tol n s0).count ∧
    (picardLoop M solve
        (fun c pr => ((res c pr).1, g2 c pr, g3 c pr)) tol n s0).res1Vals =
      (picardLoop M solve res tol n s0).res1Vals ∧
    (picardLoop M solve
        (fun c pr => ((res c pr).1, g2 c pr, g3 c pr)) tol n s0).solves =
      (picardLoop M solve res tol n s0).solves ∧
    (picardLoop M solve
        (fun c pr => ((res c pr).1, g2 c pr, g3 c pr)) tol n s0).finalState =
      (picardLoop M solve res tol n s0).finalState := by
  rw [picardLoop_eq, picardLoop_eq]
  exact ⟨rfl, rfl, rfl, rfl⟩

theorem surfint_detrend_zero {ι σ : Type} [Fintype σ] (M : MeshData ι σ)
    (h : areaOf M ≠ 0) (st : PicState ι σ) :
    surfint M.wSurf (detrendP M st).pSurf = 0 := by
  have harea : (∑ j, M.wSurf j) ≠ 0 := by
    simpa [areaOf, surfint] using h
  simp only [detrendP, surfint, areaOf]
  rw [Finset.sum_congr rfl
      (fun j _ => mul_sub (M.wSurf j) (st.pSurf j) _)]
  rw [Finset.sum_sub_distrib, ← Finset.sum_mul]
  simp only [mul_one] at *
  field_simp

/-- C1: In each script's manual Picard loop, for every run configuration,
each iteration invokes the external linear solver exactly once, and the loop
stops exactly when the relative velocity-change residual
`res1 = ‖v_i - v_im1‖_L2 / ‖v_i‖_L2` drops below `md.tol`, or when the
iteration count reaches `int(md.maxIts)`, whichever comes first; the
pressure residual `res2` and the combined residual `res3` never influence
the stopping decision. -/
theorem C1_picard_stopping {ι σ : Type} [Fintype ι] [Fintype σ]
    (M : MeshData ι σ) (solve : PicState ι σ → PicState ι σ) (sq : ℚ → ℚ)
    (tol : ℚ) (n : ℕ) (s0 : PicState ι σ) :
    ((isoPicard M solve sq tol n s0).solves =
        (isoPicard M solve sq tol n s0).count ∧
      (isoPicard M solve sq tol n s0).res1Vals =
        (List.range (isoPicard M solve sq tol n s0).count).map
          (fun k => (resSeq M solve (isoRes sq M.wVol) s0 k).1) ∧
      (isoPicard M solve sq tol n s0).count =
        stopCount (fun k =>
          decide ((resSeq M solve (isoRes sq M.wVol) s0 k).1 < tol)) n ∧
      (isoPicard M solve sq tol n s0).count ≤ n ∧
      (∀ j, j + 1 < (isoPicard M solve sq tol n s0).count →
        ¬ (resSeq M solve (isoRes sq M.wVol) s0 j).1 < tol) ∧
      ((isoPicard M solve sq tol n s0).count < n →
        (resSeq M solve (isoRes sq M.wVol) s0
          ((isoPicard M solve sq tol n s0).count - 1)).1 < tol) ∧
      (∀ g2 g3 : PicState ι σ → PicState ι σ → ℚ,
        (picardLoop M solve (fun c pr =>
            ((isoRes sq M.wVol c pr).1, g2 c pr, g3 c pr)) tol n s0).count =
          (isoPicard M solve sq tol n s0).count ∧
        (picardLoop M solve (fun c pr =>
            ((isoRes sq M.wVol c pr).1, g2 c pr, g3 c pr)) tol n s0).res1Vals =
          (isoPicard M solve sq tol n s0).res1Vals ∧
        (picardLoop M solve (fun c pr =>
            ((isoRes sq M.wVol c pr).1, g2 c pr, g3 c pr)) tol n s0).solves =
          (isoPicard M solve sq tol n s0).solves ∧
        (picardLoop M solve (fun c pr =>
            ((isoRes sq M.wVol c pr).1, g2 c pr, g3 c pr)) tol n
            s0).finalState =
          (isoPicard M solve sq tol n s0).finalState)) ∧
    ((tiPicard M solve sq tol n s0).solves =
        (tiPicard M solve sq tol n s0).count ∧
      (tiPicard M solve sq tol n s0).res1Vals =
        (List.range (tiPicard M solve sq tol n s0).count).map
          (fun k => (resSeq M solve (tiRes sq M.wVol) s0 k).1) ∧
      (tiPicard M solve sq tol n s0).count =
        stopCount (fun k =>
          decide ((resSeq M solve (tiRes sq M.wVol) s0 k).1 < tol)) n ∧
      (tiPicard M solve sq tol n s0).count ≤ n ∧
      (∀ j, j + 1 < (tiPicard M solve sq tol n s0).count →
        ¬ (resSeq M solve (tiRes sq M.wVol) s0 j).1 < tol) ∧
      ((tiPicard M solve sq tol n s0).count < n →
        (resSeq M solve (tiRes sq M.wVol) s0
          ((tiPicard M solve sq tol n s0).count - 1)).1 < tol) ∧
      (∀ g2 g3 : PicState ι σ → PicState ι σ → ℚ,
        (picardLoop M solve (fun c pr =>
            ((tiRes sq M.wVol c pr).1, g2 c pr, g3 c pr)) tol n s0).count =
          (tiPicard M solve sq tol n s0).count ∧
        (picardLoop M solve (fun c pr =>
            ((tiRes sq M.wVol c pr).1, g2 c pr, g3 c pr)) tol n s0).res1Vals =
          (tiPicard M solve sq tol n s0).res1Vals ∧
        (picardLoop M solve (fun c pr =>
            ((tiRes sq M.wVol c pr).1, g2 c pr, g3 c pr)) tol n s0).solves =
          (tiPicard M solve sq tol n s0).solves ∧
        (picardLoop M solve (fun c pr =>
            ((tiRes sq M.wVol c pr).1, g2 c pr, g3 c pr)) tol n
            s0).finalState =
          (tiPicard M solve sq tol n s0).finalState)) := by
  have hiso := picard_stop_profile M solve (isoRes sq M.wVol) tol n s0
  have hti := picard_stop_profile M solve (tiRes sq M.wVol) tol n s0
  exact ⟨⟨hiso.1, hiso.2.1, hiso.2.2.1, hiso.2.2.2.1, hiso.2.2.2.2.1,
      hiso.2.2.2.2.2,
      fun g2 g3 =>
        picard_res23_irrelevant M solve (isoRes sq M.wVol) g2 g3 tol n s0⟩,
    ⟨hti.1, hti.2.1, hti.2.2.1, hti.2.2.2.1, hti.2.2.2.2.1, hti.2.2.2.2.2,
      fun g2 g3 =>
        picard_res23_irrelevant M solve (tiRes sq M.wVol) g2 g3 tol n s0⟩⟩

/-- C2 (refuted; the code has a slip): the claim says all three residuals
are relative L2 norms of current-minus-previous-snapshot differences in
*both* scripts.  isotropic.py conforms, but ti_model.py line 978 reads
`delP = pressureField - pressureField`, so the difference entering `res2`
is the zero field and `res2` ignores the previous-pressure snapshot
entirely.  On the concrete one-point mesh with current pressure 1 and
previous pressure 0 (velocity 0, unit weight, `np.sqrt` modelled by `id`),
the claimed value — computed by the isotropic.py formula — is 1, while
ti_model.py computes 0; moreover ti_model.py's `res2` is invariant under
arbitrary changes of the previous snapshot. -/
theorem C2_ti_res2_ignores_previous :
    (isoRes (ι := Fin 1) (σ := Fin 1) id exW exCur exPrev).2.1 = 1 ∧
    (tiRes (ι := Fin 1) (σ := Fin 1) id exW exCur exPrev).2.1 = 0 ∧
    (∀ (ι σ : Type) [Fintype ι] (sq : ℚ → ℚ) (w : ι → ℚ)
      (cur prev prev' : PicState ι σ),
      (tiRes sq w cur prev).2.1 = (tiRes sq w cur prev').2.1) := by
  refine ⟨?_, ?_, ?_⟩
  · norm_num [isoRes, volumeint, dot2, exW, exCur, exPrev, Fin.sum_univ_one]
  · norm_num [tiRes, volumeint, dot2, exW, exCur, exPrev, Fin.sum_univ_one]
  · intro ι σ _ sq w cur prev prev'
    simp only [tiRes]

/-- C3: In every Picard iteration, immediately after the linear solve the
pressure field is detrended by subtracting the constant `p0/area` from every
pressure degree of freedom (`p0` the top-wall surface integral of the
pressure, `area` the top-wall surface area); consequently every state on
which the residual norms are computed has zero top-wall surface pressure
integral. -/
theorem C3_pressure_detrended {ι σ : Type} [Fintype ι] [Fintype σ]
    (M : MeshData ι σ) (solve : PicState ι σ → PicState ι σ)
    (s0 : PicState ι σ) (h : areaOf M ≠ 0) :
    (∀ (st : PicState ι σ) (i : ι), (detrendP M st).pVol i =
      st.pVol i - surfint M.wSurf st.pSurf / areaOf M) ∧
    (∀ st : PicState ι σ, surfint M.wSurf (detrendP M st).pSurf = 0) ∧
    (∀ k : ℕ, surfint M.wSurf (stateAt M solve s0 (k + 1)).pSurf = 0) := by
  refine ⟨fun st i => rfl, fun st => surfint_detrend_zero M h st, fun k => ?_⟩
  have hstep : stateAt M solve s0 (k + 1) =
      picardStep M solve (stateAt M solve s0 k) := by
    simp [stateAt, Function.iterate_succ_apply']
  rw [hstep]
  simp only [picardStep]
  exact surfint_detrend_zero M h _

/-- C8: `solver.csv` contains exactly three rows, the per-iteration
histories of `res1`, `res2`, `res3` in that order, each with one entry per
executed Picard iteration, in iteration order. -/
theorem C8_solver_csv {ι σ : Type} [Fintype ι] [Fintype σ]
    (M : MeshData ι σ) (solve : PicState ι σ → PicState ι σ) (sq : ℚ → ℚ)
    (tol : ℚ) (n : ℕ) (s0 : PicState ι σ) :
    ((solverCsv (isoPicard M solve sq tol n s0)).length = 3 ∧
      solverCsv (isoPicard M solve sq tol n s0) =
        [(List.range (isoPicard M solve sq tol n s0).count).map
            (fun k => (resSeq M solve (isoRes sq M.wVol) s0 k).1),
         (List.range (isoPicard M solve sq tol n s0).count).map
            (fun k => (resSeq M solve (isoRes sq M.wVol) s0 k).2.1),
         (List.range (isoPicard M solve sq tol n s0).count).map
            (fun k => (resSeq M solve (isoRes sq M.wVol) s0 k).2.2)] ∧
      (∀ row ∈ solverCsv (isoPicard M solve sq tol n s0),
        row.length = (isoPicard M solve sq tol n s0).count)) ∧
    ((solverCsv (tiPicard M solve sq tol n s0)).length = 3 ∧
      solverCsv (tiPicard M solve sq tol n s0) =
        [(List.range (tiPicard M solve sq tol n s0).count).map
            (fun k => (resSeq M solve (tiRes sq M.wVol) s0 k).1),
         (List.range (tiPicard M solve sq tol n s0).count).map
            (fun k => (resSeq M solve (tiRes sq M.wVol) s0 k).2.1),
         (List.range (tiPicard M solve sq tol n s0).count).map
            (fun k => (resSeq M solve (tiRes sq M.wVol) s0 k).2.2)] ∧
      (∀ row ∈ solverCsv (tiPicard M solve sq tol n s0),
        row.length = (tiPicard M solve sq tol n s0).count)) := by
  constructor
  · refine ⟨rfl, ?_, ?_⟩
    · simp only [isoPicard,
        picardLoop_eq M solve (isoRes sq M.wVol) tol n s0, solverCsv]
    · intro row hrow
      simp only [isoPicard,
        picardLoop_eq M solve (isoRes sq M.wVol) tol n s0, solverCsv,
        List.mem_cons, List.not_mem_nil, or_false] at hrow ⊢
      rcases hrow with rfl | rfl | rfl <;>
        simp [List.length_map, List.length_range]
  · refine ⟨rfl, ?_, ?_⟩
    · simp only [tiPicard,
        picardLoop_eq M solve (tiRes sq M.wVol) tol n s0, solverCsv]
    · intro row hrow
      simp only [tiPicard,
        picardLoop_eq M solve (tiRes sq M.wVol) tol n s0, solverCsv,
        List.mem_cons, List.not_mem_nil, or_false] at hrow ⊢
      rcases hrow with rfl | rfl | rfl <;>
        simp [List.length_map, List.length_range]

/-- C9: isotropic.py reassigns `md.maxIts = 10.` and ti_model.py
`md.maxIts = 4` immediately before the Picard loop, after all command-line
overrides; so whatever the configuration, the loop bound is
`int(10.) = 10` resp. `int(4) = 4` and the loop executes at most that many
iterations. -/
theorem C9_maxits_cap :
    (∀ (pf : String → Option ℚ) (args : List String),
      dictGet (isoMdAtLoop pf args) "maxIts" = some (PyVal.num 10) ∧
      dictGet (tiMdAtLoop pf args) "maxIts" = some (PyVal.num 4)) ∧
    (pyTrunc 10).toNat = 10 ∧
    (pyTrunc 4).toNat = 4 ∧
    (∀ (ι σ : Type) [Fintype ι] [Fintype σ] (M : MeshData ι σ)
      (solve : PicState ι σ → PicState ι σ) (sq : ℚ → ℚ) (tol : ℚ)
      (s0 : PicState ι σ),
      (isoPicard M solve sq tol ((pyTrunc 10).toNat) s0).count ≤ 10 ∧
      (tiPicard M solve sq tol ((pyTrunc 4).toNat) s0).count ≤ 4) := by
  have h10 : (pyTrunc 10).toNat = 10 := by
    have h : pyTrunc 10 = 10 := by norm_num [pyTrunc]
    rw [h]
    rfl
  have h4 : (pyTrunc 4).toNat = 4 := by
    have h : pyTrunc 4 = 4 := by norm_num [pyTrunc]
    rw [h]
    rfl
  refine ⟨fun pf args => ⟨dictGet_dictSet _ _ _, dictGet_dictSet _ _ _⟩,
    h10, h4, fun ι σ _ _ M solve sq tol s0 => ⟨?_, ?_⟩⟩
  · have hle := picardLoop_count_le M solve (isoRes sq M.wVol) tol
      ((pyTrunc 10).toNat) s0
    show (picardLoop M solve (isoRes sq M.wVol) tol
      ((pyTrunc 10).toNat) s0).count ≤ 10
    omega
  · have hle := picardLoop_count_le M solve (tiRes sq M.wVol) tol
      ((pyTrunc 4).toNat) s0
    show (picardLoop M solve (tiRes sq M.wVol) tol
      ((pyTrunc 4).toNat) s0).count ≤ 4
    omega

/-- C5: For every well-formed override token `dict.key=value` or
`dict.key*=value` addressed to `dp` or `md`: `'True'` converts to `True`,
`'False'` to `False`, a float-parseable string to that float, anything else
stays a string; `=` reassigns the entry to the converted value and `*=`
replaces the entry by its previous value multiplied by the converted
value (the other dictionary is untouched). -/
theorem C5_override_token_semantics :
    (∀ pf : String → Option ℚ, convertVal pf "True" = PyVal.bool true) ∧
    (∀ pf : String → Option ℚ, convertVal pf "False" = PyVal.bool false) ∧
    (∀ (pf : String → Option ℚ) (v : String) (q : ℚ), v ≠ "True" →
      v ≠ "False" → pf v = some q → convertVal pf v = PyVal.num q) ∧
    (∀ (pf : String → Option ℚ) (v : String), v ≠ "True" → v ≠ "False" →
      pf v = none → convertVal pf v = PyVal.str v) ∧
    (∀ (pf : String → Option ℚ) (dp md : PyDict) (farg : String)
      (t : TokenParts), splitToken farg = some t → t.isMul = false →
      pyStartsWith farg "dp" = true → pyStartsWith farg "md" = false →
      processToken pf farg dp md =
        some (dictSet dp t.arg (convertVal pf t.val), md)) ∧
    (∀ (pf : String → Option ℚ) (dp md : PyDict) (farg : String)
      (t : TokenParts) (old r : PyVal), splitToken farg = some t →
      t.isMul = true → pyStartsWith farg "dp" = true →
      pyStartsWith farg "md" = false → dictGet dp t.arg = some old →
      pyMul old (convertVal pf t.val) = some r →
      processToken pf farg dp md = some (dictSet dp t.arg r, md)) ∧
    (∀ (pf : String → Option ℚ) (dp md : PyDict) (farg : String)
      (t : TokenParts), splitToken farg = some t → t.isMul = false →
      pyStartsWith farg "md" = true → pyStartsWith farg "dp" = false →
      processToken pf farg dp md =
        some (dp, dictSet md t.arg (convertVal pf t.val))) ∧
    (∀ (pf : String → Option ℚ) (dp md : PyDict) (farg : String)
      (t : TokenParts) (old r : PyVal), splitToken farg = some t →
      t.isMul = true → pyStartsWith farg "md" = true →
      pyStartsWith farg "dp" = false → dictGet md t.arg = some old →
      pyMul old (convertVal pf t.val) = some r →
      processToken pf farg dp md = some (dp, dictSet md t.arg r)) ∧
    (∀ (d : PyDict) (k : String) (v : PyVal),
      dictGet (dictSet d k v) k = some v) := by
  refine ⟨fun pf => rfl, fun pf => rfl, ?_, ?_, ?_, ?_, ?_, ?_,
    fun d k v => dictGet_dictSet d k v⟩
  · intro pf v q h1 h2 h3
    simp [convertVal, h1, h2, h3]
  · intro pf v h1 h2 h3
    simp [convertVal, h1, h2, h3]
  · intro pf dp md farg t hsplit hmul hdp hmd
    simp [processToken, hsplit, hdp, hmd, applyTokenUpdate, hmul]
  · intro pf dp md farg t old r hsplit hmul hdp hmd hget hr
    simp [processToken, hsplit, hdp, hmd, applyTokenUpdate, hmul, hget, hr]
  · intro pf dp md farg t hsplit hmul hmd hdp
    simp [processToken, hsplit, hdp, hmd, applyTokenUpdate, hmul]
  · intro pf dp md farg t old r hsplit hmul hmd hdp hget hr
    simp [processToken, hsplit, hdp, hmd, applyTokenUpdate, hmul, hget, hr]

/-- C6: Any token whose parsing or application raises (no `'='` to split on,
no `'.'` in the dictionary part, `'*='` on an absent key, ...) is silently
skipped by the `try/except: pass` wrapper: nothing propagates and `dp`, `md`
are exactly as before the token. -/
theorem C6_malformed_tokens_skipped :
    (∀ (pf : String → Option ℚ) (farg : String) (dp md : PyDict),
      processToken pf farg dp md = none →
      applyToken pf dp md farg = (dp, md)) ∧
    (∀ farg : String, pyContains farg "=" = false → splitToken farg = none) ∧
    (∀ (pf : String → Option ℚ) (farg : String) (dp md : PyDict),
      splitToken farg = none → processToken pf farg dp md = none) ∧
    (∀ (pf : String → Option ℚ) (dp md : PyDict),
      applyToken pf dp md "plaintoken" = (dp, md)) ∧
    (∀ (pf : String → Option ℚ) (dp md : PyDict),
      applyToken pf dp md "nodot=3" = (dp, md)) ∧
    (∀ (pf : String → Option ℚ) (md : PyDict),
      applyToken pf [] md "dp.absent*=2" = ([], md)) := by
  refine ⟨?_, ?_, ?_, ?_, ?_, ?_⟩
  · intro pf farg dp md h
    simp [applyToken, h]
  · intro farg h
    simp [splitToken, unpack2_of_not_contains farg "=" h]
  · intro pf farg dp md h
    simp [processToken, h]
  · intro pf dp md
    have h : splitToken "plaintoken" = none := by decide
    simp [applyToken, processToken, h]
  · intro pf dp md
    have h : splitToken "nodot=3" = none := by decide
    simp [applyToken, processToken, h]
  · intro pf md
    have hs : splitToken "dp.absent*=2" =
        some ⟨"dp", "absent", "2", true⟩ := by decide
    have hdp : pyStartsWith "dp.absent*=2" "dp" = true := by decide
    simp [applyToken, processToken, hs, hdp, applyTokenUpdate, dictGet]

/-- C7: A positional argument (no `'='`, first argument not `'-f'`) sets
`ModNum` when `int()`-parseable and `Model` otherwise; with no such
argument the defaults `Model = "T"`, `ModNum = 0` stand. -/
theorem C7_model_modnum_selection :
    (∀ pint : String → Option ℤ, parseModelArgs pint [] = ("T", 0)) ∧
    (∀ (pint : String → Option ℤ) (rest : List String),
      parseModelArgs pint ("-f" :: rest) = ("T", 0)) ∧
    (∀ (pint : String → Option ℤ) (acc : String × ℤ) (farg : String)
      (n : ℤ), pyContains farg "=" = false → pint farg = some n →
      posStep pint acc farg = (acc.1, n)) ∧
    (∀ (pint : String → Option ℤ) (acc : String × ℤ) (farg : String),
      pyContains farg "=" = false → pint farg = none →
      posStep pint acc farg = (farg, acc.2)) ∧
    (∀ (pint : String → Option ℤ) (acc : String × ℤ) (farg : String),
      pyContains farg "=" = true → posStep pint acc farg = acc) ∧
    (∀ (pint : String → Option ℤ) (a : String) (args : List String),
      a ≠ "-f" → parseModelArgs pint (a :: args) =
        (a :: args).foldl (posStep pint) ("T", 0)) := by
  refine ⟨fun pint => rfl, fun pint rest => ?_, ?_, ?_, ?_, ?_⟩
  · simp [parseModelArgs]
  · intro pint acc farg n h1 h2
    simp [posStep, h1, h2]
  · intro pint acc farg h1 h2
    simp [posStep, h1, h2]
  · intro pint acc farg h1
    simp [posStep, h1]
  · intro pint a args h
    simp [parseModelArgs, h]

/-- C10: The override loop dispatches on the raw token text starting with
`'dp'` / `'md'`, not on the parsed dictionary name: tokens addressed to
other dictionaries (`sf.…`, `ndp.…`) parse fine but change nothing and
raise nothing, a token merely starting with `'dp'` (like `dpqq.k=…`)
updates `dp`, and a `=` token naming an absent key appends a brand-new
entry. -/
theorem C10_startswith_dispatch :
    (∀ (pf : String → Option ℚ) (dp md : PyDict) (farg : String)
      (t : TokenParts), splitToken farg = some t →
      pyStartsWith farg "dp" = false → pyStartsWith farg "md" = false →
      applyToken pf dp md farg = (dp, md)) ∧
    (∀ (pf : String → Option ℚ) (dp md : PyDict),
      applyToken pf dp md "sf.LS=10" = (dp, md)) ∧
    (∀ (pf : String → Option ℚ) (dp md : PyDict),
      applyToken pf dp md "ndp.cohesion=3" = (dp, md)) ∧
    (∀ (pf : String → Option ℚ) (dp md : PyDict),
      applyToken pf dp md "dpqq.k=True" =
        (dictSet dp "k" (PyVal.bool true), md)) ∧
    (∀ (pf : String → Option ℚ) (dp md : PyDict),
      applyToken pf dp md "md.newkey=True" =
        (dp, dictSet md "newkey" (PyVal.bool true))) ∧
    (∀ (d : PyDict) (k : String) (v : PyVal), dictGet d k = none →
      dictGet (dictSet d k v) k = some v) := by
  refine ⟨?_, ?_, ?_, ?_, ?_, fun d k v _ => dictGet_dictSet d k v⟩
  · intro pf dp md farg t hsplit hdp hmd
    simp [applyToken, processToken, hsplit, hdp, hmd]
  · intro pf dp md
    have hs : splitToken "sf.LS=10" = some ⟨"sf", "LS", "10", false⟩ := by
      decide
    have hdp : pyStartsWith "sf.LS=10" "dp" = false := by decide
    have hmd : pyStartsWith "sf.LS=10" "md" = false := by decide
    simp [applyToken, processToken, hs, hdp, hmd]
  · intro pf dp md
    have hs : splitToken "ndp.cohesion=3" =
        some ⟨"ndp", "cohesion", "3", false⟩ := by decide
    have hdp : pyStartsWith "ndp.cohesion=3" "dp" = false := by decide
    have hmd : pyStartsWith "ndp.cohesion=3" "md" = false := by decide
    simp [applyToken, processToken, hs, hdp, hmd]
  · intro pf dp md
    have hs : splitToken "dpqq.k=True" =
        some ⟨"dpqq", "k", "True", false⟩ := by decide
    have hdp : pyStartsWith "dpqq.k=True" "dp" = true := by decide
    have hmd : pyStartsWith "dpqq.k=True" "md" = false := by decide
    simp [applyToken, processToken, hs, hdp, hmd, applyTokenUpdate,
      convertVal]
  · intro pf dp md
    have hs : splitToken "md.newkey=True" =
        some ⟨"md", "newkey", "True", false⟩ := by decide
    have hdp : pyStartsWith "md.newkey=True" "dp" = false := by decide
    have hmd : pyStartsWith "md.newkey=True" "md" = true := by decide
    simp [applyToken, processToken, hs, hdp, hmd, applyTokenUpdate,
      convertVal]

/-- C4 (refuting instance): the claim's own example `ndp.cohesion =
dp.cohesion / sf.stress` fails in isotropic.py, whose non-dimensional
cohesion carries an extra factor `np.cos(np.radians(dp.fa))` (and
`cos(30°) = √3/2 ≠ 1` while `dp.cohesion / sf.stress ≠ 0`). -/
theorem C4_counterexample :
    IsoScale.ndp_cohesion ≠ IsoScale.dp_cohesion / IsoScale.sf_stress := by
  intro h
  have hrad : radians IsoScale.dp_fa = Real.pi / 6 := by
    unfold radians IsoScale.dp_fa
    ring
  unfold IsoScale.ndp_cohesion at h
  rw [hrad, Real.cos_pi_div_six] at h
  have hX : IsoScale.dp_cohesion / IsoScale.sf_stress =
      (11826 / 3125 : ℝ) := by
    norm_num [IsoScale.dp_cohesion, IsoScale.sf_stress, IsoScale.sf_eta0,
      IsoScale.dp_U0, IsoScale.sf_LS]
  rw [hX] at h
  have hs : Real.sqrt 3 * Real.sqrt 3 = 3 :=
    Real.mul_self_sqrt (by norm_num)
  nlinarith [h, hs, sq_nonneg (Real.sqrt 3 - 2)]

/-- C4 (amended): the plainly-scaled entries of `ndp` are the dimensional
values divided by their scale factors (evaluated here), but `ndp.fa` is a
friction *coefficient* — `sin` of the friction angle in isotropic.py,
`tan` in ti_model.py — not `dp.fa` over a scale factor; isotropic.py's
`ndp.cohesion` carries an extra `cos(radians(dp.fa))` factor; and `ndp.a`
is copied unscaled. -/
theorem C4_amended_nondim_values :
    IsoScale.ndp_depth = 1 ∧
    IsoScale.ndp_U0 = 1 ∧
    IsoScale.ndp_asthenosphere = 1 / 4 ∧
    IsoScale.ndp_eta1 = 100 ∧
    IsoScale.ndp_eta2 = 1 / 100 ∧
    IsoScale.ndp_etaMin = 1 / 10000 ∧
    IsoScale.ndp_g = 1 ∧
    IsoScale.ndp_rho = 469852893 / 15625000 ∧
    IsoScale.ndp_notchWidth = 1 / 16 ∧
    IsoScale.ndp_lam = 1 / 1000000 ∧
    IsoScale.ndp_cohesion = 11826 / 3125 * (Real.sqrt 3 / 2) ∧
    IsoScale.ndp_fa = 1 / 2 ∧
    IsoScale.ndp_a = 1 ∧
    TiScale.ndp_U = 1 ∧
    TiScale.ndp_asthenosphere = 1 / 4 ∧
    TiScale.ndp_eta1 = 100 ∧
    TiScale.ndp_eta2 = 1 / 10 ∧
    TiScale.ndp_etaMin = 1 / 1000 ∧
    TiScale.ndp_cohesion = 23652 / 3125 ∧
    TiScale.ndp_fa = 2 - Real.sqrt 3 ∧
    TiScale.ndp_g = 1 ∧
    TiScale.ndp_rho = 469852893 / 7812500 ∧
    TiScale.ndp_notchWidth = 1 / 16 ∧
    TiScale.ndp_a = 1 := by
  refine ⟨?_, ?_, ?_, ?_, ?_, ?_, ?_, ?_, ?_, ?_, ?_, ?_, ?_, ?_, ?_, ?_,
    ?_, ?_, ?_, ?_, ?_, ?_, ?_, ?_⟩
  · norm_num [IsoScale.ndp_depth, IsoScale.dp_depth, IsoScale.sf_LS]
  · norm_num [IsoScale.ndp_U0, IsoScale.dp_U0, IsoScale.sf_vel]
  · norm_num [IsoScale.ndp_asthenosphere, IsoScale.dp_asthenosphere,
      IsoScale.dp_depth, IsoScale.sf_LS]
  · norm_num [IsoScale.ndp_eta1, IsoScale.dp_eta1, IsoScale.sf_eta0]
  · norm_num [IsoScale.ndp_eta2, IsoScale.dp_eta2, IsoScale.sf_eta0]
  · norm_num [IsoScale.ndp_etaMin, IsoScale.dp_etaMin, IsoScale.sf_eta0]
  · norm_num [IsoScale.ndp_g, IsoScale.dp_g, IsoScale.sf_g]
  · norm_num [IsoScale.ndp_rho, IsoScale.dp_rho, IsoScale.sf_rho,
      IsoScale.sf_eta0, IsoScale.dp_U0, IsoScale.sf_LS, IsoScale.dp_g]
  · norm_num [IsoScale.ndp_notchWidth, IsoScale.dp_notchWidth,
      IsoScale.dp_depth, IsoScale.sf_LS]
  · norm_num [IsoScale.ndp_lam, IsoScale.dp_lam, IsoScale.sf_eta0]
  · have hrad : radians IsoScale.dp_fa = Real.pi / 6 := by
      unfold radians IsoScale.dp_fa
      ring
    unfold IsoScale.ndp_cohesion
    rw [hrad, Real.cos_pi_div_six]
    have hX : IsoScale.dp_cohesion / IsoScale.sf_stress =
        (11826 / 3125 : ℝ) := by
      norm_num [IsoScale.dp_cohesion, IsoScale.sf_stress, IsoScale.sf_eta0,
        IsoScale.dp_U0, IsoScale.sf_LS]
    rw [hX]
  · have hrad : radians IsoScale.dp_fa = Real.pi / 6 := by
      unfold radians IsoScale.dp_fa
      ring
    unfold IsoScale.ndp_fa
    rw [hrad, Real.sin_pi_div_six]
  · norm_num [IsoScale.ndp_a, IsoScale.dp_a]
  · norm_num [TiScale.ndp_U, TiScale.dp_U0, TiScale.sf_vel]
  · norm_num [TiScale.ndp_asthenosphere, TiScale.dp_asthenosphere,
      TiScale.dp_LS]
  · norm_num [TiScale.ndp_eta1, TiScale.dp_eta1, TiScale.dp_eta0]
  · norm_num [TiScale.ndp_eta2, TiScale.dp_eta2, TiScale.dp_eta0]
  · norm_num [TiScale.ndp_etaMin, TiScale.dp_etaMin, TiScale.dp_eta0]
  · norm_num [TiScale.ndp_cohesion, TiScale.dp_cohesion, TiScale.sf_stress,
      TiScale.dp_eta0, TiScale.dp_U0, TiScale.dp_LS]
  · have h12 : Real.pi / 180 * TiScale.dp_fa = Real.pi / 12 := by
      unfold TiScale.dp_fa
      ring
    unfold TiScale.ndp_fa
    rw [h12, show Real.pi / 12 = Real.pi / 3 - Real.pi / 4 by ring,
      Real.tan_eq_sin_div_cos, Real.sin_sub, Real.cos_sub,
      Real.sin_pi_div_three, Real.cos_pi_div_three, Real.sin_pi_div_four,
      Real.cos_pi_div_four]
    have hs2 : Real.sqrt 2 * Real.sqrt 2 = 2 :=
      Real.mul_self_sqrt (by norm_num)
    have hs3 : Real.sqrt 3 * Real.sqrt 3 = 3 :=
      Real.mul_self_sqrt (by norm_num)
    have h2pos : (0:ℝ) < Real.sqrt 2 := Real.sqrt_pos.mpr (by norm_num)
    have h3nn : (0:ℝ) ≤ Real.sqrt 3 := Real.sqrt_nonneg 3
    have hden : (1 / 2) * (Real.sqrt 2 / 2) +
        Real.sqrt 3 / 2 * (Real.sqrt 2 / 2) ≠ 0 := by
      positivity
    rw [div_eq_iff hden]
    ring_nf
    nlinarith [hs2, hs3, h2pos, h3nn]
  · norm_num [TiScale.ndp_g, TiScale.dp_g, TiScale.sf_g]
  · norm_num [TiScale.ndp_rho, TiScale.dp_rho, TiScale.sf_rho,
      TiScale.dp_eta0, TiScale.dp_U0, TiScale.dp_LS, TiScale.dp_g]
  · norm_num [TiScale.ndp_notchWidth, TiScale.dp_notchWidth, TiScale.dp_LS]
  · norm_num [TiScale.ndp_a, TiScale.dp_a]

/-- Witness for C1 on the concrete one-point mesh: with `tol = 1/3` and
bound 2 the loop stops after one iteration, and the theorem's early-stop
implication yields that the first residual was below the tolerance. -/
theorem C1_picard_stopping_witness :
    (isoPicard exMesh exSolve id (1/3) 2 exState).count = 1 ∧
    (isoPicard exMesh exSolve id (1/3) 2 exState).count < 2 ∧
    (resSeq exMesh exSolve (isoRes id exMesh.wVol) exState
      ((isoPicard exMesh exSolve id (1/3) 2 exState).count - 1)).1 < 1/3 := by
  have h := C1_picard_stopping exMesh exSolve id (1/3) 2 exState
  have hcount : (isoPicard exMesh exSolve id (1/3) 2 exState).count = 1 := by
    norm_num [isoPicard, picardLoop, picardStep, detrendP, isoRes, volumeint,
      surfint, areaOf, dot2, exMesh, exSolve, exState, Fin.sum_univ_one,
      abs_of_nonneg]
  refine ⟨hcount, ?_, h.1.2.2.2.2.2.1 ?_⟩
  · rw [hcount]
    norm_num
  · rw [hcount]
    norm_num

/-- Witness for C3: on the concrete mesh the top-wall area is 2 ≠ 0, and
the theorem yields a zero surface-pressure integral after iteration 1. -/
theorem C3_pressure_detrended_witness :
    areaOf exMesh ≠ 0 ∧
    surfint exMesh.wSurf (stateAt exMesh exSolve exState 1).pSurf = 0 := by
  have harea : areaOf exMesh ≠ 0 := by
    norm_num [areaOf, surfint, exMesh, Fin.sum_univ_one]
  exact ⟨harea, (C3_pressure_detrended exMesh exSolve exState harea).2.2 0⟩

/-- Witness for C5: a concrete `=` token and a concrete `*=` token, with
every hypothesis discharged and the resulting dictionaries evaluated. -/
theorem C5_override_token_semantics_witness :
    splitToken "dp.res=2" = some ⟨"dp", "res", "2", false⟩ ∧
    processToken exFloatParse "dp.res=2" [] [] =
      some ([("res", PyVal.num 2)], []) ∧
    splitToken "md.x*=2" = some ⟨"md", "x", "2", true⟩ ∧
    processToken exFloatParse "md.x*=2" [] [("x", PyVal.num 50)] =
      some ([], [("x", PyVal.num 100)]) := by
  have h := C5_override_token_semantics
  have h1 : splitToken "dp.res=2" = some ⟨"dp", "res", "2", false⟩ := by
    decide
  have h2 : splitToken "md.x*=2" = some ⟨"md", "x", "2", true⟩ := by decide
  have hc : convertVal exFloatParse "2" = PyVal.num 2 := by decide
  refine ⟨h1, ?_, h2, ?_⟩
  · have hres := h.2.2.2.2.1 exFloatParse [] [] "dp.res=2"
      ⟨"dp", "res", "2", false⟩ h1 rfl (by decide) (by decide)
    rw [hres]
    decide
  · have hres := h.2.2.2.2.2.2.2.1 exFloatParse [] [("x", PyVal.num 50)]
      "md.x*=2" ⟨"md", "x", "2", true⟩ (PyVal.num 50) (PyVal.num 100) h2 rfl
      (by decide) (by decide) (by decide)
      (by rw [hc]; norm_num [pyMul])
    rw [hres]
    decide

/-- Witness for C6: a token with no `'='` raises inside the `try:` body and
the wrapper leaves the dictionaries unchanged. -/
theorem C6_malformed_tokens_skipped_witness :
    processToken exFloatParse "noequalsign" [("a", PyVal.num 1)] [] = none ∧
    applyToken exFloatParse [("a", PyVal.num 1)] [] "noequalsign" =
      ([("a", PyVal.num 1)], []) := by
  have hnone : processToken exFloatParse "noequalsign"
      [("a", PyVal.num 1)] [] = none := by decide
  exact ⟨hnone,
    C6_malformed_tokens_skipped.1 exFloatParse "noequalsign" _ _ hnone⟩

/-- Witness for C7: a concrete int-parseable argument sets `ModNum`, a
concrete non-numeric argument sets `Model`. -/
theorem C7_model_modnum_selection_witness :
    pyContains "7" "=" = false ∧ exIntParse "7" = some 7 ∧
    posStep exIntParse ("T", 0) "7" = ("T", 7) ∧
    pyContains "Afoo" "=" = false ∧ exIntParse "Afoo" = none ∧
    posStep exIntParse ("T", 0) "Afoo" = ("Afoo", 0) := by
  refine ⟨by decide, by decide, ?_, by decide, by decide, ?_⟩
  · exact C7_model_modnum_selection.2.2.1 exIntParse ("T", 0) "7" 7
      (by decide) (by decide)
  · exact C7_model_modnum_selection.2.2.2.1 exIntParse ("T", 0) "Afoo"
      (by decide) (by decide)

/-- Witness for C8: on the concrete run (tolerance 0, bound 2) the CSV has
three rows and each row's length is the iteration count 2. -/
theorem C8_solver_csv_witness :
    (solverCsv (isoPicard exMesh exSolve id 0 2 exState)).length = 3 ∧
    (isoPicard exMesh exSolve id 0 2 exState).count = 2 ∧
    (∀ row ∈ solverCsv (isoPicard exMesh exSolve id 0 2 exState),
      row.length = (isoPicard exMesh exSolve id 0 2 exState).count) := by
  refine ⟨(C8_solver_csv exMesh exSolve id 0 2 exState).1.1, ?_,
    (C8_solver_csv exMesh exSolve id 0 2 exState).1.2.2⟩
  norm_num [isoPicard, picardLoop, picardStep, detrendP, isoRes, volumeint,
    surfint, areaOf, dot2, exMesh, exSolve, exState, Fin.sum_univ_one,
    abs_of_nonneg]

/-- Witness for C10: a concrete `ndp.…` token parses but changes nothing. -/
theorem C10_startswith_dispatch_witness :
    splitToken "ndp.eta1=9" = some ⟨"ndp", "eta1", "9", false⟩ ∧
    pyStartsWith "ndp.eta1=9" "dp" = false ∧
    applyToken exFloatParse [("a", PyVal.num 1)] [] "ndp.eta1=9" =
      ([("a", PyVal.num 1)], []) := by
  have h1 : splitToken "ndp.eta1=9" = some ⟨"ndp", "eta1", "9", false⟩ := by
    decide
  exact ⟨h1, by decide,
    C10_startswith_dispatch.1 exFloatParse [("a", PyVal.num 1)] []
      "ndp.eta1=9" ⟨"ndp", "eta1", "9", false⟩ h1 (by decide) (by decide)⟩

/-- Witness for C9: the cap instantiated on the concrete mesh and solver. -/
theorem C9_maxits_cap_witness :
    (isoPicard exMesh exSolve id 0 ((pyTrunc 10).toNat) exState).count ≤ 10 ∧
    dictGet (isoMdAtLoop exFloatParse ["md.maxIts=50"]) "maxIts" =
      some (PyVal.num 10) :=
  ⟨(C9_maxits_cap.2.2.2 (Fin 1) (Fin 1) exMesh exSolve id 0 exState).1,
   (C9_maxits_cap.1 exFloatParse ["md.maxIts=50"]).1⟩

end ShearBands
